import Mathlib

set_option maxHeartbeats 1000000

/-! Shallow embedding of the chatbot in `src/main.py` (class `ChatBot`).

Python string primitives (`lower`, `strip`, `startswith`, substring `in`,
`split`, `int(...)`) are embedded as structural functions over `String.data`
so that everything evaluates by kernel reduction.  Prices are modeled in
cents (`Nat`): every catalog price has exactly two decimal digits and the
program only adds prices and multiplies them by a count, so cents arithmetic
matches the two-decimal `:.2f` output exactly. -/

/-- Python `str.lower` (per-character lowercase). -/
def pyLower (s : String) : String := ⟨s.data.map Char.toLower⟩

/-- Python `str.strip`: drop whitespace at both ends. -/
def pyStrip (s : String) : String :=
  ⟨((s.data.dropWhile Char.isWhitespace).reverse.dropWhile Char.isWhitespace).reverse⟩

/-- Python `s.startswith(pre)`. -/
def pyStartsWith (s pre : String) : Bool := pre.data.isPrefixOf s.data

/-- Python substring membership `sub in s`. -/
def pyContains (s sub : String) : Bool := decide (sub.data <:+: s.data)

/-- Core of Python `s.split(sep)` for a one-character separator, over char
lists.  The result is always non-empty. -/
def pySplitCore (sep : Char) : List Char → List (List Char)
  | [] => [[]]
  | c :: cs =>
    match pySplitCore sep cs with
    | [] => [[]]
    | r :: rs => if c = sep then [] :: r :: rs else (c :: r) :: rs

/-- Python `s.split(sep)` for a one-character separator. -/
def pySplit (s : String) (sep : Char) : List String :=
  (pySplitCore sep s.data).map fun cs => ⟨cs⟩

/-- Digit-list to number accumulator used by `pyInt`. -/
def digitsToNat (l : List Char) : Nat :=
  l.foldl (fun acc c => acc * 10 + (c.toNat - 48)) 0

/-- Python `int(s)`: optional surrounding whitespace, optional sign, one or
more ASCII digits; `none` when the string does not parse (`ValueError`). -/
def pyInt (s : String) : Option Int :=
  let t := (pyStrip s).data
  let sd : Bool × List Char :=
    match t with
    | '-' :: rest => (true, rest)
    | '+' :: rest => (false, rest)
    | rest => (false, rest)
  if sd.2 ≠ [] ∧ sd.2.all Char.isDigit then
    some (if sd.1 then -(digitsToNat sd.2 : Int) else (digitsToNat sd.2 : Int))
  else none

/-- Python `f"...{x:.2f}"` on a price held in cents. -/
def formatPrice (cents : Nat) : String :=
  toString (cents / 100) ++ "." ++ toString (cents % 100 / 10) ++ toString (cents % 100 % 10)

/-- A catalog product: `{"id": ..., "name": ..., "price": ...}`. -/
structure Product where
  id : Int
  name : String
  price : Nat
  deriving DecidableEq

/-- The fixed catalog `AVAILABLE_PRODUCTS` of `src/main.py` (prices in cents). -/
def AVAILABLE_PRODUCTS : List Product :=
  [⟨1, "Laptop", 99999⟩, ⟨2, "Mouse", 2999⟩, ⟨3, "Keyboard", 7999⟩, ⟨4, "Monitor", 29999⟩]

/-- One follow-up option: `{"text": ..., "callback": ...}`. -/
structure Button where
  text : String
  callback : String
  deriving DecidableEq

/-- The uniform reply shape: a `response` string and an optional `buttons`
list (`none` models a Python dict without the `"buttons"` key). -/
structure Response where
  response : String
  buttons : Option (List Button)
  deriving DecidableEq

/-- Per-user session dict: cart, last selected product and the (unused)
`state` field. -/
structure Session where
  cart : List Product
  last_product : Option Product
  state : String
  deriving DecidableEq

/-- The session created on first contact. -/
def freshSession : Session := ⟨[], none, "browsing"⟩

/-- The `self.sessions` dict of class `ChatBot`, as a map from user id to
session. -/
def ChatBot : Type := String → Option Session

/-- A freshly constructed `ChatBot()`: no sessions. -/
def initialBot : ChatBot := fun _ => none

/-- Write one user's session into the sessions map. -/
def setSession (bot : ChatBot) (user_id : String) (s : Session) : ChatBot :=
  fun u => if u = user_id then some s else bot u

/-- `ChatBot._get_or_create_session`. -/
def get_or_create_session (bot : ChatBot) (user_id : String) : Session × ChatBot :=
  match bot user_id with
  | some s => (s, bot)
  | none => (freshSession, setSession bot user_id freshSession)

/-- `ChatBot._is_add_to_cart_intent`. -/
def is_add_to_cart_intent (message : String) : Bool :=
  ["agregar al carrito", "add to cart", "añadir al carrito", "agregar", "añadir"
  ].any fun pat => pyContains message pat

/-- `ChatBot._is_product_search`. -/
def is_product_search (message : String) : Bool :=
  (AVAILABLE_PRODUCTS.map fun p => pyLower p.name).any fun name => pyContains message name

/-- `ChatBot._is_view_cart_intent`. -/
def is_view_cart_intent (message : String) : Bool :=
  ["carrito", "cart", "ver carrito", "view cart"].any fun pat => pyContains message pat

/-- `ChatBot.find_last_selected_product`. -/
def find_last_selected_product (bot : ChatBot) (user_id : String) :
    Option Product × ChatBot :=
  let sb := get_or_create_session bot user_id
  (sb.1.last_product, sb.2)

/-- `ChatBot._find_product_by_id`: first catalog product with this id. -/
def find_product_by_id (product_id : Int) : Option Product :=
  AVAILABLE_PRODUCTS.find? fun p => p.id == product_id

/-- `ChatBot._find_product_by_name`: first catalog product whose lowercased
name occurs in the lowercased query. -/
def find_product_by_name (query : String) : Option Product :=
  AVAILABLE_PRODUCTS.find? fun p => pyContains (pyLower query) (pyLower p.name)

/-- The "no product selected" reply of `add_product_to_cart`. -/
def noProductResponse : Response :=
  ⟨"❌ No hay producto seleccionado. Por favor, elige un producto primero.",
    some [⟨"Ver productos", "btn_browse"⟩]⟩

/-- The success reply of `add_product_to_cart`. -/
def addSuccessResponse (p : Product) : Response :=
  ⟨"✅ " ++ p.name ++ " agregado al carrito correctamente!",
    some [⟨"Ver carrito", "btn_view_cart"⟩, ⟨"Continuar comprando", "btn_browse"⟩]⟩

/-- `ChatBot.add_product_to_cart`.  Python tests `if product_id:` — a
truthiness test, so both `None` and `0` fall back to the last selected
product.  The `try` block cannot fail here (list append and dict writes on
an in-memory session), so the `except` reply is unreachable and not
modeled. -/
def add_product_to_cart (bot : ChatBot) (user_id : String)
    (product_id : Option Int := none) : Response × ChatBot :=
  let sb := get_or_create_session bot user_id
  let product : Option Product :=
    match product_id with
    | some pid =>
      if pid = 0 then (find_last_selected_product sb.2 user_id).1
      else find_product_by_id pid
    | none => (find_last_selected_product sb.2 user_id).1
  match product with
  | none => (noProductResponse, sb.2)
  | some p =>
    (addSuccessResponse p,
      setSession sb.2 user_id
        { sb.1 with cart := sb.1.cart ++ [p], last_product := some p })

/-- The `item_counts` insertion-ordered dict build of
`send_cart_confirmation_buttons`, one step: bump the count of an existing
name or append a new group (first occurrence keeps its item). -/
def addToGroups (groups : List (Product × Nat)) (item : Product) :
    List (Product × Nat) :=
  match groups with
  | [] => [(item, 1)]
  | (p, c) :: rest =>
    if p.name = item.name then (p, c + 1) :: rest
    else (p, c) :: addToGroups rest item

/-- Grouping of the whole cart by product name, in insertion order. -/
def groupCart (cart : List Product) : List (Product × Nat) :=
  cart.foldl addToGroups []

/-- One display line of the cart summary. -/
def cartLine (p : Product) (count : Nat) : String :=
  if count > 1 then
    "• " ++ p.name ++ " x" ++ toString count ++ " - $" ++ formatPrice (p.price * count)
  else
    "• " ++ p.name ++ " - $" ++ formatPrice p.price

/-- The empty-cart reply of `send_cart_confirmation_buttons`. -/
def emptyCartResponse : Response :=
  ⟨"🛒 Tu carrito está vacío\n¿Quieres ver nuestros productos?",
    some [⟨"Ver productos", "btn_browse"⟩]⟩

/-- The non-empty cart summary text of `send_cart_confirmation_buttons`. -/
def cartSummaryText (cart : List Product) : String :=
  "🛒 Tu carrito (" ++ toString cart.length ++ " items):\n"
    ++ String.intercalate "\n" ((groupCart cart).map fun g => cartLine g.1 g.2)
    ++ "\n\nTotal: $" ++ formatPrice (cart.map Product.price).sum

/-- `ChatBot.send_cart_confirmation_buttons`. -/
def send_cart_confirmation_buttons (bot : ChatBot) (user_id : String) :
    Response × ChatBot :=
  let sb := get_or_create_session bot user_id
  if sb.1.cart = [] then (emptyCartResponse, sb.2)
  else
    (⟨cartSummaryText sb.1.cart,
      some [⟨"Proceder al pago", "btn_checkout"⟩,
            ⟨"Continuar comprando", "btn_browse"⟩,
            ⟨"Vaciar carrito", "btn_clear_cart"⟩]⟩, sb.2)

/-- The product-detail reply of `handle_product_selection`. -/
def productDetailResponse (p : Product) : Response :=
  ⟨"📱 " ++ p.name ++ " - $" ++ formatPrice p.price ++ "\n¿Te interesa?",
    some [⟨"Agregar al carrito", "btn_add_" ++ toString p.id⟩,
          ⟨"Ver más productos", "btn_browse"⟩]⟩

/-- The not-found reply of `handle_product_selection`. -/
def notFoundResponse : Response :=
  ⟨"❌ Producto no encontrado. ¿Quieres ver todos los productos disponibles?",
    some [⟨"Ver productos", "btn_browse"⟩]⟩

/-- `ChatBot.handle_product_selection`. -/
def handle_product_selection (bot : ChatBot) (user_id query : String) :
    Response × ChatBot :=
  let sb := get_or_create_session bot user_id
  match find_product_by_name query with
  | some p =>
    (productDetailResponse p,
      setSession sb.2 user_id { sb.1 with last_product := some p })
  | none => (notFoundResponse, sb.2)

/-- `ChatBot.show_products` (touches no session state). -/
def show_products (bot : ChatBot) (user_id : String) : Response × ChatBot :=
  (⟨"🏪 Productos disponibles:\nHaz clic en un producto para agregarlo al carrito:",
    some (AVAILABLE_PRODUCTS.map fun p =>
      ⟨p.name ++ " - $" ++ formatPrice p.price, "btn_add_" ++ toString p.id⟩)⟩, bot)

/-- `ChatBot.clear_cart`. -/
def clear_cart (bot : ChatBot) (user_id : String) : Response × ChatBot :=
  let sb := get_or_create_session bot user_id
  (⟨"🛒 Carrito vacío correctamente.", some [⟨"Ver productos", "btn_browse"⟩]⟩,
    setSession sb.2 user_id { sb.1 with cart := [] })

/-- The empty-cart failure reply of `process_checkout`. -/
def checkoutEmptyResponse : Response :=
  ⟨"❌ No puedes proceder al pago con un carrito vacío.",
    some [⟨"Ver productos", "btn_browse"⟩]⟩

/-- The success reply of `process_checkout` (total in cents). -/
def checkoutSuccessResponse (totalCents : Nat) : Response :=
  ⟨"✅ ¡Compra realizada exitosamente!\nTotal pagado: $" ++ formatPrice totalCents
      ++ "\n¡Gracias por tu compra!",
    some [⟨"Comprar más", "btn_browse"⟩]⟩

/-- `ChatBot.process_checkout`. -/
def process_checkout (bot : ChatBot) (user_id : String) : Response × ChatBot :=
  let sb := get_or_create_session bot user_id
  if sb.1.cart = [] then (checkoutEmptyResponse, sb.2)
  else
    (checkoutSuccessResponse (sb.1.cart.map Product.price).sum,
      setSession sb.2 user_id { sb.1 with cart := [], last_product := none })

/-- The malformed-button reply of `handle_button_press`. -/
def buttonErrorResponse : Response := ⟨"❌ Error en el botón. Intenta de nuevo.", none⟩

/-- The unrecognized-button reply of `handle_button_press`. -/
def buttonUnknownResponse : Response := ⟨"❌ Botón no reconocido", none⟩

/-- `ChatBot.handle_button_press`.  The `int(button_data.split("_")[-1])`
parse is modeled by `pyInt` on the last `'_'`-separated token; a parse
failure is the caught `ValueError`. -/
def handle_button_press (bot : ChatBot) (user_id button_data : String) :
    Response × ChatBot :=
  let bot1 := (get_or_create_session bot user_id).2
  if pyStartsWith button_data "btn_add_" then
    match pyInt ((pySplit button_data '_').getLastD "") with
    | some pid => add_product_to_cart bot1 user_id (some pid)
    | none => (buttonErrorResponse, bot1)
  else if button_data = "btn_view_cart" then send_cart_confirmation_buttons bot1 user_id
  else if button_data = "btn_browse" then show_products bot1 user_id
  else if button_data = "btn_clear_cart" then clear_cart bot1 user_id
  else if button_data = "btn_checkout" then process_checkout bot1 user_id
  else (buttonUnknownResponse, bot1)

/-- The fallback reply of `handle_message`. -/
def didNotUnderstandResponse : Response :=
  ⟨"No entiendo. ¿Puedes ser más específico?", none⟩

/-- `ChatBot.handle_message`: button dispatch on the raw message, then the
intent predicates on the lowercased, stripped message, in source order. -/
def handle_message (bot : ChatBot) (user_id message : String) :
    Response × ChatBot :=
  let bot1 := (get_or_create_session bot user_id).2
  let message_lower := pyStrip (pyLower message)
  if pyStartsWith message "btn_" then handle_button_press bot1 user_id message
  else if is_add_to_cart_intent message_lower then add_product_to_cart bot1 user_id
  else if is_product_search message_lower then
    handle_product_selection bot1 user_id message_lower
  else if is_view_cart_intent message_lower then
    send_cart_confirmation_buttons bot1 user_id
  else (didNotUnderstandResponse, bot1)

/-- Run a list of `(user_id, message)` events through `handle_message`. -/
def runMessages (bot : ChatBot) (msgs : List (String × String)) : ChatBot :=
  msgs.foldl (fun b um => (handle_message b um.1 um.2).2) bot

/-- First-occurrence deduplication, the key order of an insertion-ordered
dict (used to state what `groupCart` does to names). -/
def dedupFirst (l : List String) : List String :=
  l.foldl (fun acc x => if x ∈ acc then acc else acc ++ [x]) []

/-- A session whose `last_product`, when set, is a catalog product. -/
def SessOk (sess : Session) : Prop :=
  sess.last_product = none ∨ ∃ p ∈ AVAILABLE_PRODUCTS, sess.last_product = some p

/-- Every stored session has a catalog-backed `last_product` (when set). -/
def LastInv (bot : ChatBot) : Prop :=
  ∀ u sess, bot u = some sess → SessOk sess

/-! ## Basic session-store lemmas -/

theorem setSession_self (bot : ChatBot) (u : String) (s : Session) :
    setSession bot u s u = some s := by
  simp [setSession]

theorem setSession_other (bot : ChatBot) (u v : String) (s : Session) (h : v ≠ u) :
    setSession bot u s v = bot v := by
  simp [setSession, h]

theorem get_or_create_of_some (bot : ChatBot) (u : String) (s : Session)
    (h : bot u = some s) : get_or_create_session bot u = (s, bot) := by
  simp [get_or_create_session, h]

theorem get_or_create_of_none (bot : ChatBot) (u : String) (h : bot u = none) :
    get_or_create_session bot u = (freshSession, setSession bot u freshSession) := by
  simp [get_or_create_session, h]

theorem get_or_create_snd_self (bot : ChatBot) (u : String) :
    (get_or_create_session bot u).2 u = some (get_or_create_session bot u).1 := by
  cases h : bot u with
  | some s => simp [get_or_create_session, h]
  | none => simp [get_or_create_session, h, setSession]

theorem get_or_create_snd_other (bot : ChatBot) (u v : String) (h : v ≠ u) :
    (get_or_create_session bot u).2 v = bot v := by
  cases hs : bot u with
  | some s => simp [get_or_create_session, hs]
  | none => simp [get_or_create_session, hs, setSession, h]

theorem get_or_create_idem (bot : ChatBot) (u : String) :
    get_or_create_session (get_or_create_session bot u).2 u =
      ((get_or_create_session bot u).1, (get_or_create_session bot u).2) := by
  cases h : bot u with
  | some s => simp [get_or_create_session, h]
  | none => simp [get_or_create_session, h, setSession]

/-! ## Dispatcher routing lemmas -/

theorem hm_button (bot : ChatBot) (u m : String)
    (h : pyStartsWith m "btn_" = true) :
    handle_message bot u m = handle_button_press bot u m := by
  simp only [handle_message, h, if_true]
  simp only [handle_button_press, get_or_create_idem]

theorem hm_text_add (bot : ChatBot) (u m : String)
    (hbtn : pyStartsWith m "btn_" = false)
    (hadd : is_add_to_cart_intent (pyStrip (pyLower m)) = true) :
    handle_message bot u m = add_product_to_cart bot u none := by
  simp only [handle_message, hbtn, hadd, Bool.false_eq_true, if_false, if_true]
  simp only [add_product_to_cart, get_or_create_idem]

theorem hm_search (bot : ChatBot) (u m : String)
    (hbtn : pyStartsWith m "btn_" = false)
    (hadd : is_add_to_cart_intent (pyStrip (pyLower m)) = false)
    (hsearch : is_product_search (pyStrip (pyLower m)) = true) :
    handle_message bot u m = handle_product_selection bot u (pyStrip (pyLower m)) := by
  simp only [handle_message, hbtn, hadd, hsearch, Bool.false_eq_true, if_false, if_true]
  simp only [handle_product_selection, get_or_create_idem]

theorem hm_view (bot : ChatBot) (u m : String)
    (hbtn : pyStartsWith m "btn_" = false)
    (hadd : is_add_to_cart_intent (pyStrip (pyLower m)) = false)
    (hsearch : is_product_search (pyStrip (pyLower m)) = false)
    (hview : is_view_cart_intent (pyStrip (pyLower m)) = true) :
    handle_message bot u m = send_cart_confirmation_buttons bot u := by
  simp only [handle_message, hbtn, hadd, hsearch, hview, Bool.false_eq_true, if_false, if_true]
  simp only [send_cart_confirmation_buttons, get_or_create_idem]

theorem hm_fallback (bot : ChatBot) (u m : String)
    (hbtn : pyStartsWith m "btn_" = false)
    (hadd : is_add_to_cart_intent (pyStrip (pyLower m)) = false)
    (hsearch : is_product_search (pyStrip (pyLower m)) = false)
    (hview : is_view_cart_intent (pyStrip (pyLower m)) = false) :
    handle_message bot u m = (didNotUnderstandResponse, (get_or_create_session bot u).2) := by
  simp only [handle_message, hbtn, hadd, hsearch, hview, Bool.false_eq_true, if_false]

/-! ## Cart-operation lemmas -/

theorem add_text_of_last (bot : ChatBot) (u : String) (sess : Session) (p : Product)
    (h : bot u = some sess) (hl : sess.last_product = some p) :
    add_product_to_cart bot u none =
      (addSuccessResponse p,
        setSession bot u { sess with cart := sess.cart ++ [p], last_product := some p }) := by
  simp [add_product_to_cart, find_last_selected_product, get_or_create_of_some bot u sess h, hl]

theorem add_text_of_no_last (bot : ChatBot) (u : String) (sess : Session)
    (h : bot u = some sess) (hl : sess.last_product = none) :
    add_product_to_cart bot u none = (noProductResponse, bot) := by
  simp [add_product_to_cart, find_last_selected_product, get_or_create_of_some bot u sess h, hl]

theorem add_id_found (bot : ChatBot) (u : String) (sess : Session) (pid : Int) (p : Product)
    (h : bot u = some sess) (hpid : pid ≠ 0) (hf : find_product_by_id pid = some p) :
    add_product_to_cart bot u (some pid) =
      (addSuccessResponse p,
        setSession bot u { sess with cart := sess.cart ++ [p], last_product := some p }) := by
  simp [add_product_to_cart, get_or_create_of_some bot u sess h, hpid, hf]

theorem add_id_found_fst (bot : ChatBot) (u : String) (pid : Int) (p : Product)
    (hpid : pid ≠ 0) (hf : find_product_by_id pid = some p) :
    (add_product_to_cart bot u (some pid)).1 = addSuccessResponse p := by
  cases h : bot u <;>
    simp [add_product_to_cart, get_or_create_session, h, hpid, hf]

theorem add_id_notfound_fst (bot : ChatBot) (u : String) (pid : Int)
    (hpid : pid ≠ 0) (hf : find_product_by_id pid = none) :
    (add_product_to_cart bot u (some pid)).1 = noProductResponse := by
  cases h : bot u <;>
    simp [add_product_to_cart, get_or_create_session, h, hpid, hf]

theorem clear_cart_of_some (bot : ChatBot) (u : String) (sess : Session)
    (h : bot u = some sess) :
    clear_cart bot u =
      (⟨"🛒 Carrito vacío correctamente.", some [⟨"Ver productos", "btn_browse"⟩]⟩,
        setSession bot u { sess with cart := [] }) := by
  simp [clear_cart, get_or_create_of_some bot u sess h]

/-! ## Catalog facts -/

theorem find_by_id_self : ∀ p ∈ AVAILABLE_PRODUCTS, find_product_by_id p.id = some p := by
  decide

theorem catalog_id_ne_zero : ∀ p ∈ AVAILABLE_PRODUCTS, p.id ≠ 0 := by
  decide

theorem startsWith_btn_of_btn_add (m : String) (h : pyStartsWith m "btn_add_" = true) :
    pyStartsWith m "btn_" = true := by
  simp only [pyStartsWith] at h ⊢
  simp only [ List.isPrefixOf_iff_prefix ] at h ⊢
  have h0 : "btn_".data <+: "btn_add_".data := by decide
  exact h0.trans h

theorem hm_btn_add_of_parse (bot : ChatBot) (u m : String) (pid : Int)
    (hpre : pyStartsWith m "btn_add_" = true)
    (hparse : pyInt ((pySplit m '_').getLastD "") = some pid) :
    handle_message bot u m = add_product_to_cart bot u (some pid) := by
  rw [hm_button bot u m (startsWith_btn_of_btn_add m hpre)]
  simp only [handle_button_press, hpre, hparse, if_true]
  simp only [add_product_to_cart, get_or_create_idem]

theorem hm_btn_add_id (bot : ChatBot) (u : String) (p : Product)
    (hp : p ∈ AVAILABLE_PRODUCTS) :
    handle_message bot u ("btn_add_" ++ toString p.id) =
      add_product_to_cart bot u (some p.id) := by
  fin_cases hp
  · exact hm_btn_add_of_parse bot u _ 1 (by decide) (by decide)
  · exact hm_btn_add_of_parse bot u _ 2 (by decide) (by decide)
  · exact hm_btn_add_of_parse bot u _ 3 (by decide) (by decide)
  · exact hm_btn_add_of_parse bot u _ 4 (by decide) (by decide)

theorem add_step (bot : ChatBot) (u m : String) (sess : Session) (p : Product)
    (h : bot u = some sess) (hl : sess.last_product = some p)
    (hp : p ∈ AVAILABLE_PRODUCTS)
    (hm : (pyStartsWith m "btn_" = false
            ∧ is_add_to_cart_intent (pyStrip (pyLower m)) = true)
          ∨ m = "btn_add_" ++ toString p.id) :
    handle_message bot u m =
      (addSuccessResponse p,
        setSession bot u { sess with cart := sess.cart ++ [p], last_product := some p }) := by
  rcases hm with ⟨hbtn, hadd⟩ | rfl
  · rw [hm_text_add bot u m hbtn hadd, add_text_of_last bot u sess p h hl]
  · rw [hm_btn_add_id bot u p hp,
      add_id_found bot u sess p.id p h (catalog_id_ne_zero p hp) (find_by_id_self p hp)]

/-! ## Claims -/

/-- C1: path equivalence of the two add-to-cart entry points.  For every
product `p` in the catalog and every user whose session has
`last_product = p`, `handle_message` with a non-button text message matching
the add-to-cart intent and `handle_message` with the button callback
`btn_add_<p.id>` return identical responses (string and buttons, and in fact
identical resulting states), both being the unified add-success reply. -/
theorem add_path_equivalence (bot : ChatBot) (u m : String) (sess : Session) (p : Product)
    (hp : p ∈ AVAILABLE_PRODUCTS) (h : bot u = some sess)
    (hl : sess.last_product = some p)
    (hbtn : pyStartsWith m "btn_" = false)
    (hadd : is_add_to_cart_intent (pyStrip (pyLower m)) = true) :
    (handle_message bot u m).1.response
        = (handle_message bot u ("btn_add_" ++ toString p.id)).1.response
    ∧ (handle_message bot u m).1.buttons
        = (handle_message bot u ("btn_add_" ++ toString p.id)).1.buttons
    ∧ (handle_message bot u m).1 = addSuccessResponse p := by
  rw [add_step bot u m sess p h hl hp (Or.inl ⟨hbtn, hadd⟩),
    add_step bot u ("btn_add_" ++ toString p.id) sess p h hl hp (Or.inr rfl)]
  exact ⟨rfl, rfl, rfl⟩

/-- C1 witness: user "u" with `last_product = Laptop`; the text command
"agregar al carrito" and the button "btn_add_1" agree. -/
theorem add_path_equivalence_witness :
    (setSession initialBot "u" ⟨[], some ⟨1, "Laptop", 99999⟩, "browsing"⟩) "u"
        = some ⟨[], some ⟨1, "Laptop", 99999⟩, "browsing"⟩
    ∧ pyStartsWith "agregar al carrito" "btn_" = false
    ∧ is_add_to_cart_intent (pyStrip (pyLower "agregar al carrito")) = true
    ∧ ((handle_message (setSession initialBot "u" ⟨[], some ⟨1, "Laptop", 99999⟩, "browsing"⟩)
          "u" "agregar al carrito").1.response
        = (handle_message (setSession initialBot "u" ⟨[], some ⟨1, "Laptop", 99999⟩, "browsing"⟩)
            "u" ("btn_add_" ++ toString (1 : Int))).1.response
      ∧ (handle_message (setSession initialBot "u" ⟨[], some ⟨1, "Laptop", 99999⟩, "browsing"⟩)
          "u" "agregar al carrito").1.buttons
        = (handle_message (setSession initialBot "u" ⟨[], some ⟨1, "Laptop", 99999⟩, "browsing"⟩)
            "u" ("btn_add_" ++ toString (1 : Int))).1.buttons
      ∧ (handle_message (setSession initialBot "u" ⟨[], some ⟨1, "Laptop", 99999⟩, "browsing"⟩)
          "u" "agregar al carrito").1 = addSuccessResponse ⟨1, "Laptop", 99999⟩) :=
  ⟨by decide, by decide, by decide,
    add_path_equivalence
      (setSession initialBot "u" ⟨[], some ⟨1, "Laptop", 99999⟩, "browsing"⟩)
      "u" "agregar al carrito" ⟨[], some ⟨1, "Laptop", 99999⟩, "browsing"⟩
      ⟨1, "Laptop", 99999⟩ (by decide) (by decide) (by decide) (by decide) (by decide)⟩

/-- C2 counterexample: the claim quantifies over every numeric product id,
but Python tests `if product_id:` (truthiness), so the supplied id `0` — for
which no catalog product exists — is treated as absent: with
`last_product = Laptop` the call `add_product_to_cart(u, 0)` succeeds and
adds the Laptop instead of returning the "no product selected" outcome. -/
theorem add_by_id_zero_counterexample :
    find_product_by_id 0 = none
    ∧ (add_product_to_cart
        (setSession initialBot "u" ⟨[], some ⟨1, "Laptop", 99999⟩, "browsing"⟩)
        "u" (some 0)).1 = addSuccessResponse ⟨1, "Laptop", 99999⟩
    ∧ (add_product_to_cart
        (setSession initialBot "u" ⟨[], some ⟨1, "Laptop", 99999⟩, "browsing"⟩)
        "u" (some 0)).1 ≠ noProductResponse := by
  exact ⟨by decide, by decide, by decide⟩

/-- C2 (amended): for every nonzero numeric product id the product to add is
resolved by catalog lookup on that id; when no catalog product has that id,
the operation returns the "no product selected" outcome regardless of the
session state (id `0` is treated as absent by the Python truthiness test and
falls back to `last_product`). -/
theorem add_by_id_resolution (bot : ChatBot) (u : String) (pid : Int) (hpid : pid ≠ 0) :
    (find_product_by_id pid = none →
      (add_product_to_cart bot u (some pid)).1 = noProductResponse)
    ∧ ∀ p, find_product_by_id pid = some p →
        (add_product_to_cart bot u (some pid)).1 = addSuccessResponse p :=
  ⟨fun hf => add_id_notfound_fst bot u pid hpid hf,
    fun p hf => add_id_found_fst bot u pid p hpid hf⟩

/-- C2 witness: id 99 has no catalog product, so even with a selected
Laptop the reply is "no product selected"; id 2 resolves to the Mouse. -/
theorem add_by_id_resolution_witness :
    (99 : Int) ≠ 0
    ∧ find_product_by_id 99 = none
    ∧ (add_product_to_cart
        (setSession initialBot "u" ⟨[], some ⟨1, "Laptop", 99999⟩, "browsing"⟩)
        "u" (some 99)).1 = noProductResponse
    ∧ (add_product_to_cart initialBot "u" (some 2)).1
        = addSuccessResponse ⟨2, "Mouse", 2999⟩ :=
  ⟨by decide, by decide,
    (add_by_id_resolution
      (setSession initialBot "u" ⟨[], some ⟨1, "Laptop", 99999⟩, "browsing"⟩)
      "u" 99 (by decide)).1 (by decide),
    (add_by_id_resolution initialBot "u" 2 (by decide)).2 ⟨2, "Mouse", 2999⟩ (by decide)⟩

/-- C5: dispatcher routing precedence.  For every non-button text message
the normalized (lowercased, stripped) message is tested in the fixed order
add-to-cart, product-search, view-cart; the first matching predicate
determines the route.  In particular, whenever the add-to-cart predicate
holds, the message routes to `add_product_to_cart` even when the
product-search predicate also holds. -/
theorem dispatcher_precedence (bot : ChatBot) (u m : String)
    (hbtn : pyStartsWith m "btn_" = false) :
    (is_add_to_cart_intent (pyStrip (pyLower m)) = true →
        handle_message bot u m = add_product_to_cart bot u none)
    ∧ (is_add_to_cart_intent (pyStrip (pyLower m)) = false →
        is_product_search (pyStrip (pyLower m)) = true →
          handle_message bot u m = handle_product_selection bot u (pyStrip (pyLower m)))
    ∧ (is_add_to_cart_intent (pyStrip (pyLower m)) = false →
        is_product_search (pyStrip (pyLower m)) = false →
          is_view_cart_intent (pyStrip (pyLower m)) = true →
            handle_message bot u m = send_cart_confirmation_buttons bot u)
    ∧ (is_add_to_cart_intent (pyStrip (pyLower m)) = false →
        is_product_search (pyStrip (pyLower m)) = false →
          is_view_cart_intent (pyStrip (pyLower m)) = false →
            (handle_message bot u m).1 = didNotUnderstandResponse) :=
  ⟨fun hadd => hm_text_add bot u m hbtn hadd,
    fun hadd hsearch => hm_search bot u m hbtn hadd hsearch,
    fun hadd hsearch hview => hm_view bot u m hbtn hadd hsearch hview,
    fun hadd hsearch hview => by
      rw [hm_fallback bot u m hbtn hadd hsearch hview]⟩

/-- C5 witness: "agregar laptop" matches both the add-to-cart and the
product-search predicates, and is routed as add-to-cart. -/
theorem dispatcher_precedence_witness :
    pyStartsWith "agregar laptop" "btn_" = false
    ∧ is_add_to_cart_intent (pyStrip (pyLower "agregar laptop")) = true
    ∧ is_product_search (pyStrip (pyLower "agregar laptop")) = true
    ∧ handle_message initialBot "u" "agregar laptop"
        = add_product_to_cart initialBot "u" none :=
  ⟨by decide, by decide, by decide,
    (dispatcher_precedence initialBot "u" "agregar laptop" (by decide)).1 (by decide)⟩

/-- C6: cart accumulation without deduplication.  Starting from an empty
cart with `last_product = p` (a catalog product), adding `p` twice — each
time either by a non-button add-intent text message or by the button
callback `btn_add_<p.id>` — yields a cart that is exactly the two-element
sequence `[p, p]` (two separate snapshot entries, no quantity merging). -/
theorem cart_accumulation (bot : ChatBot) (u m₁ m₂ : String) (sess : Session) (p : Product)
    (h : bot u = some sess) (hc : sess.cart = []) (hl : sess.last_product = some p)
    (hp : p ∈ AVAILABLE_PRODUCTS)
    (h₁ : (pyStartsWith m₁ "btn_" = false
            ∧ is_add_to_cart_intent (pyStrip (pyLower m₁)) = true)
          ∨ m₁ = "btn_add_" ++ toString p.id)
    (h₂ : (pyStartsWith m₂ "btn_" = false
            ∧ is_add_to_cart_intent (pyStrip (pyLower m₂)) = true)
          ∨ m₂ = "btn_add_" ++ toString p.id) :
    runMessages bot [(u, m₁), (u, m₂)] u
      = some { sess with cart := [p, p], last_product := some p } := by
  have s₁ := add_step bot u m₁ sess p h hl hp h₁
  have s₂ := add_step ((handle_message bot u m₁).2) u m₂
      { sess with cart := sess.cart ++ [p], last_product := some p } p
      (by rw [s₁]; exact setSession_self bot u _) rfl hp h₂
  simp only [runMessages, List.foldl_cons, List.foldl_nil, s₂]
  rw [s₁]
  simp [setSession, hc]

/-- C6 witness: Mouse selected, added once by text and once by button. -/
theorem cart_accumulation_witness :
    (setSession initialBot "u" ⟨[], some ⟨2, "Mouse", 2999⟩, "browsing"⟩) "u"
        = some ⟨[], some ⟨2, "Mouse", 2999⟩, "browsing"⟩
    ∧ runMessages (setSession initialBot "u" ⟨[], some ⟨2, "Mouse", 2999⟩, "browsing"⟩)
        [("u", "agregar al carrito"), ("u", "btn_add_" ++ toString (2 : Int))] "u"
      = some ⟨[⟨2, "Mouse", 2999⟩, ⟨2, "Mouse", 2999⟩], some ⟨2, "Mouse", 2999⟩, "browsing"⟩ :=
  ⟨by decide,
    cart_accumulation
      (setSession initialBot "u" ⟨[], some ⟨2, "Mouse", 2999⟩, "browsing"⟩)
      "u" "agregar al carrito" ("btn_add_" ++ toString (2 : Int))
      ⟨[], some ⟨2, "Mouse", 2999⟩, "browsing"⟩ ⟨2, "Mouse", 2999⟩
      (by decide) rfl rfl (by decide) (Or.inl ⟨by decide, by decide⟩) (Or.inr rfl)⟩

/-- C10: `clear_cart` empties only the cart and leaves `last_product`
unchanged, so an add-to-cart text command issued right after clearing
succeeds and re-adds the previously selected product, giving a length-1
cart, instead of returning the "no product selected" outcome. -/
theorem clear_then_add (bot : ChatBot) (u m : String) (sess : Session) (p : Product)
    (h : bot u = some sess) (hl : sess.last_product = some p)
    (hbtn : pyStartsWith m "btn_" = false)
    (hadd : is_add_to_cart_intent (pyStrip (pyLower m)) = true) :
    (clear_cart bot u).2 u = some { sess with cart := [] }
    ∧ (handle_message (clear_cart bot u).2 u m).1 = addSuccessResponse p
    ∧ (handle_message (clear_cart bot u).2 u m).1 ≠ noProductResponse
    ∧ (handle_message (clear_cart bot u).2 u m).2 u
        = some { sess with cart := [p], last_product := some p } := by
  have hclear : (clear_cart bot u).2 u = some { sess with cart := [] } := by
    rw [clear_cart_of_some bot u sess h]; exact setSession_self bot u _
  refine ⟨hclear, ?_, ?_, ?_⟩
  · rw [hm_text_add _ u m hbtn hadd, add_text_of_last _ u { sess with cart := [] } p hclear hl]
  · rw [hm_text_add _ u m hbtn hadd, add_text_of_last _ u { sess with cart := [] } p hclear hl]
    intro hcontra
    have hb := congrArg Response.buttons hcontra
    simp [addSuccessResponse, noProductResponse] at hb
  · rw [hm_text_add _ u m hbtn hadd, add_text_of_last _ u { sess with cart := [] } p hclear hl]
    exact setSession_self _ u _

/-- C10 witness: Keyboard selected, cart cleared, then "agregar". -/
theorem clear_then_add_witness :
    (setSession initialBot "u" ⟨[⟨3, "Keyboard", 7999⟩], some ⟨3, "Keyboard", 7999⟩, "browsing"⟩) "u"
        = some ⟨[⟨3, "Keyboard", 7999⟩], some ⟨3, "Keyboard", 7999⟩, "browsing"⟩
    ∧ (handle_message
        (clear_cart (setSession initialBot "u"
          ⟨[⟨3, "Keyboard", 7999⟩], some ⟨3, "Keyboard", 7999⟩, "browsing"⟩) "u").2
        "u" "agregar").1 = addSuccessResponse ⟨3, "Keyboard", 7999⟩
    ∧ (handle_message
        (clear_cart (setSession initialBot "u"
          ⟨[⟨3, "Keyboard", 7999⟩], some ⟨3, "Keyboard", 7999⟩, "browsing"⟩) "u").2
        "u" "agregar").2 "u"
      = some ⟨[⟨3, "Keyboard", 7999⟩], some ⟨3, "Keyboard", 7999⟩, "browsing"⟩ := by
  have h := clear_then_add
    (setSession initialBot "u" ⟨[⟨3, "Keyboard", 7999⟩], some ⟨3, "Keyboard", 7999⟩, "browsing"⟩)
    "u" "agregar" ⟨[⟨3, "Keyboard", 7999⟩], some ⟨3, "Keyboard", 7999⟩, "browsing"⟩
    ⟨3, "Keyboard", 7999⟩ (by decide) (by decide) (by decide) (by decide)
  exact ⟨by decide, h.2.1, h.2.2.2⟩

/-! ## Checkout lemmas -/

theorem checkout_of_empty (bot : ChatBot) (u : String) (sess : Session)
    (h : bot u = some sess) (hc : sess.cart = []) :
    process_checkout bot u = (checkoutEmptyResponse, bot) := by
  simp [process_checkout, get_or_create_of_some bot u sess h, hc]

theorem checkout_of_nonempty (bot : ChatBot) (u : String) (sess : Session)
    (h : bot u = some sess) (hc : sess.cart ≠ []) :
    process_checkout bot u =
      (checkoutSuccessResponse (sess.cart.map Product.price).sum,
        setSession bot u { sess with cart := [], last_product := none }) := by
  simp [process_checkout, get_or_create_of_some bot u sess h, hc]

theorem checkoutSuccess_ne_empty (t : Nat) :
    checkoutSuccessResponse t ≠ checkoutEmptyResponse := by
  intro hcontra
  have hb := congrArg Response.buttons hcontra
  simp [checkoutSuccessResponse, checkoutEmptyResponse] at hb

/-- C3: checkout contract.  For every user with a session, checkout returns
the cannot-checkout-empty-cart failure outcome iff the cart is empty, and
then leaves the whole session store unchanged; when the cart is non-empty it
returns the success outcome reporting the sum of all cart item prices as the
total paid, and afterwards the user's cart is empty and `last_product` is
none. -/
theorem checkout_contract (bot : ChatBot) (u : String) (sess : Session)
    (h : bot u = some sess) :
    ((process_checkout bot u).1 = checkoutEmptyResponse ↔ sess.cart = [])
    ∧ (sess.cart = [] → process_checkout bot u = (checkoutEmptyResponse, bot))
    ∧ (sess.cart ≠ [] →
        (process_checkout bot u).1
            = checkoutSuccessResponse (sess.cart.map Product.price).sum
        ∧ (process_checkout bot u).2 u = some ⟨[], none, sess.state⟩) := by
  by_cases hc : sess.cart = []
  · refine ⟨⟨fun _ => hc, fun _ => ?_⟩, fun _ => checkout_of_empty bot u sess h hc,
      fun hne => absurd hc hne⟩
    rw [checkout_of_empty bot u sess h hc]
  · have hne := checkout_of_nonempty bot u sess h hc
    refine ⟨⟨fun habs => ?_, fun he => absurd he hc⟩, fun he => absurd he hc,
      fun _ => ⟨by rw [hne], ?_⟩⟩
    · rw [hne] at habs
      exact absurd habs (checkoutSuccess_ne_empty _)
    · rw [hne]
      exact setSession_self bot u _

/-- C3 witness: empty cart fails and changes nothing; the cart
[Laptop, Mouse] checks out for $1029.98 and resets the session. -/
theorem checkout_contract_witness :
    (setSession initialBot "u" ⟨[], some ⟨1, "Laptop", 99999⟩, "browsing"⟩) "u"
        = some ⟨[], some ⟨1, "Laptop", 99999⟩, "browsing"⟩
    ∧ process_checkout (setSession initialBot "u" ⟨[], some ⟨1, "Laptop", 99999⟩, "browsing"⟩) "u"
        = (checkoutEmptyResponse,
            setSession initialBot "u" ⟨[], some ⟨1, "Laptop", 99999⟩, "browsing"⟩)
    ∧ (process_checkout
        (setSession initialBot "u"
          ⟨[⟨1, "Laptop", 99999⟩, ⟨2, "Mouse", 2999⟩], none, "browsing"⟩) "u").1
        = checkoutSuccessResponse 102998
    ∧ (process_checkout
        (setSession initialBot "u"
          ⟨[⟨1, "Laptop", 99999⟩, ⟨2, "Mouse", 2999⟩], none, "browsing"⟩) "u").2 "u"
        = some ⟨[], none, "browsing"⟩
    ∧ (checkoutSuccessResponse 102998).response
        = "✅ ¡Compra realizada exitosamente!\nTotal pagado: $1029.98\n¡Gracias por tu compra!" := by
  have h1 := checkout_contract
    (setSession initialBot "u" ⟨[], some ⟨1, "Laptop", 99999⟩, "browsing"⟩) "u"
    ⟨[], some ⟨1, "Laptop", 99999⟩, "browsing"⟩ (by decide)
  have h2 := checkout_contract
    (setSession initialBot "u" ⟨[⟨1, "Laptop", 99999⟩, ⟨2, "Mouse", 2999⟩], none, "browsing"⟩)
    "u" ⟨[⟨1, "Laptop", 99999⟩, ⟨2, "Mouse", 2999⟩], none, "browsing"⟩ (by decide)
  exact ⟨by decide, h1.2.1 rfl, (h2.2.2 (by decide)).1, (h2.2.2 (by decide)).2, by decide⟩

/-- C7: malformed and unrecognized button payloads.  A message starting with
"btn_add_" whose final underscore-separated token does not parse as an
integer yields the "button error" reply; any other "btn_"-prefixed message
that is none of the recognized callbacks yields the "button not recognized"
reply.  Both are plain replies (no exception in the model), and neither
changes the user's stored session. -/
theorem button_error_handling (bot : ChatBot) (u m : String) :
    (pyStartsWith m "btn_add_" = true →
      pyInt ((pySplit m '_').getLastD "") = none →
        (handle_message bot u m).1 = buttonErrorResponse
        ∧ ∀ sess, bot u = some sess → (handle_message bot u m).2 u = some sess)
    ∧ (pyStartsWith m "btn_" = true → pyStartsWith m "btn_add_" = false →
        m ≠ "btn_view_cart" → m ≠ "btn_browse" → m ≠ "btn_clear_cart" → m ≠ "btn_checkout" →
          (handle_message bot u m).1 = buttonUnknownResponse
          ∧ ∀ sess, bot u = some sess → (handle_message bot u m).2 u = some sess) := by
  constructor
  · intro hpre hparse
    have hres : handle_message bot u m
        = (buttonErrorResponse, (get_or_create_session bot u).2) := by
      rw [hm_button bot u m (startsWith_btn_of_btn_add m hpre)]
      simp only [handle_button_press, hpre, hparse, if_true]
    refine ⟨by rw [hres], fun sess hs => ?_⟩
    rw [hres]
    simp [get_or_create_of_some bot u sess hs, hs]
  · intro hb hpre h1 h2 h3 h4
    have hres : handle_message bot u m
        = (buttonUnknownResponse, (get_or_create_session bot u).2) := by
      rw [hm_button bot u m hb]
      simp only [handle_button_press, hpre, Bool.false_eq_true, if_false,
        if_neg h1, if_neg h2, if_neg h3, if_neg h4]
    refine ⟨by rw [hres], fun sess hs => ?_⟩
    rw [hres]
    simp [get_or_create_of_some bot u sess hs, hs]

/-- C7 witness: "btn_add_invalid" gives the button-error reply and
"btn_nope" the not-recognized reply; the stored session is untouched. -/
theorem button_error_handling_witness :
    pyStartsWith "btn_add_invalid" "btn_add_" = true
    ∧ pyInt ((pySplit "btn_add_invalid" '_').getLastD "") = none
    ∧ (handle_message
        (setSession initialBot "u" ⟨[⟨2, "Mouse", 2999⟩], some ⟨2, "Mouse", 2999⟩, "browsing"⟩)
        "u" "btn_add_invalid").1 = buttonErrorResponse
    ∧ (handle_message
        (setSession initialBot "u" ⟨[⟨2, "Mouse", 2999⟩], some ⟨2, "Mouse", 2999⟩, "browsing"⟩)
        "u" "btn_add_invalid").2 "u"
      = some ⟨[⟨2, "Mouse", 2999⟩], some ⟨2, "Mouse", 2999⟩, "browsing"⟩
    ∧ (handle_message
        (setSession initialBot "u" ⟨[⟨2, "Mouse", 2999⟩], some ⟨2, "Mouse", 2999⟩, "browsing"⟩)
        "u" "btn_nope").1 = buttonUnknownResponse
    ∧ (handle_message
        (setSession initialBot "u" ⟨[⟨2, "Mouse", 2999⟩], some ⟨2, "Mouse", 2999⟩, "browsing"⟩)
        "u" "btn_nope").2 "u"
      = some ⟨[⟨2, "Mouse", 2999⟩], some ⟨2, "Mouse", 2999⟩, "browsing"⟩ := by
  have ha := (button_error_handling
    (setSession initialBot "u" ⟨[⟨2, "Mouse", 2999⟩], some ⟨2, "Mouse", 2999⟩, "browsing"⟩)
    "u" "btn_add_invalid").1 (by decide) (by decide)
  have hb := (button_error_handling
    (setSession initialBot "u" ⟨[⟨2, "Mouse", 2999⟩], some ⟨2, "Mouse", 2999⟩, "browsing"⟩)
    "u" "btn_nope").2 (by decide) (by decide) (by decide) (by decide) (by decide) (by decide)
  exact ⟨by decide, by decide, ha.1, ha.2 _ (by decide), hb.1, hb.2 _ (by decide)⟩

/-! ## Frame lemmas: operations for user `a` do not touch user `b` -/

theorem add_frame (bot : ChatBot) (a b : String) (hne : b ≠ a) (pid : Option Int) :
    (add_product_to_cart bot a pid).2 b = bot b := by
  simp only [add_product_to_cart]
  split
  · exact get_or_create_snd_other bot a b hne
  · exact (setSession_other _ a b _ hne).trans (get_or_create_snd_other bot a b hne)

theorem selection_frame (bot : ChatBot) (a b q : String) (hne : b ≠ a) :
    (handle_product_selection bot a q).2 b = bot b := by
  simp only [handle_product_selection]
  split
  · exact (setSession_other _ a b _ hne).trans (get_or_create_snd_other bot a b hne)
  · exact get_or_create_snd_other bot a b hne

theorem view_frame (bot : ChatBot) (a b : String) (hne : b ≠ a) :
    (send_cart_confirmation_buttons bot a).2 b = bot b := by
  simp only [send_cart_confirmation_buttons]
  split
  · exact get_or_create_snd_other bot a b hne
  · exact get_or_create_snd_other bot a b hne

theorem clear_frame (bot : ChatBot) (a b : String) (hne : b ≠ a) :
    (clear_cart bot a).2 b = bot b := by
  simp only [clear_cart]
  exact (setSession_other _ a b _ hne).trans (get_or_create_snd_other bot a b hne)

theorem checkout_frame (bot : ChatBot) (a b : String) (hne : b ≠ a) :
    (process_checkout bot a).2 b = bot b := by
  simp only [process_checkout]
  split
  · exact get_or_create_snd_other bot a b hne
  · exact (setSession_other _ a b _ hne).trans (get_or_create_snd_other bot a b hne)

theorem show_frame (bot : ChatBot) (a b : String) :
    (show_products bot a).2 b = bot b := rfl

theorem button_frame (bot : ChatBot) (a b m : String) (hne : b ≠ a) :
    (handle_button_press bot a m).2 b = bot b := by
  have hg := get_or_create_snd_other bot a b hne
  simp only [handle_button_press]
  split
  · split
    · exact (add_frame _ a b hne _).trans hg
    · exact hg
  · split
    · exact (view_frame _ a b hne).trans hg
    · split
      · exact (show_frame _ a b).trans hg
      · split
        · exact (clear_frame _ a b hne).trans hg
        · split
          · exact (checkout_frame _ a b hne).trans hg
          · exact hg

theorem hm_frame (bot : ChatBot) (a b m : String) (hne : b ≠ a) :
    (handle_message bot a m).2 b = bot b := by
  have hg := get_or_create_snd_other bot a b hne
  simp only [handle_message]
  split
  · exact (button_frame _ a b m hne).trans hg
  · split
    · exact (add_frame _ a b hne none).trans hg
    · split
      · exact (selection_frame _ a b _ hne).trans hg
      · split
        · exact (view_frame _ a b hne).trans hg
        · exact hg

/-- C8: session isolation.  For distinct users `a` and `b`, every operation
invoked for `a` (message handling, adding to the cart by either path,
clearing the cart, checkout, viewing the cart) leaves `b`'s stored
session — hence its cart and `last_product` — unchanged. -/
theorem session_isolation (bot : ChatBot) (a b : String) (hne : b ≠ a) :
    (∀ m, (handle_message bot a m).2 b = bot b)
    ∧ (∀ pid : Option Int, (add_product_to_cart bot a pid).2 b = bot b)
    ∧ (clear_cart bot a).2 b = bot b
    ∧ (process_checkout bot a).2 b = bot b
    ∧ (send_cart_confirmation_buttons bot a).2 b = bot b :=
  ⟨fun m => hm_frame bot a b m hne,
    fun pid => add_frame bot a b hne pid,
    clear_frame bot a b hne,
    checkout_frame bot a b hne,
    view_frame bot a b hne⟩

/-- C8 witness: alice adds a Laptop; bob's stored session is untouched. -/
theorem session_isolation_witness :
    ("bob" : String) ≠ "alice"
    ∧ (handle_message
        (setSession initialBot "bob" ⟨[⟨2, "Mouse", 2999⟩], none, "browsing"⟩)
        "alice" "btn_add_1").2 "bob"
      = (setSession initialBot "bob" ⟨[⟨2, "Mouse", 2999⟩], none, "browsing"⟩) "bob"
    ∧ (process_checkout
        (setSession initialBot "bob" ⟨[⟨2, "Mouse", 2999⟩], none, "browsing"⟩)
        "alice").2 "bob"
      = (setSession initialBot "bob" ⟨[⟨2, "Mouse", 2999⟩], none, "browsing"⟩) "bob" :=
  ⟨by decide,
    (session_isolation
      (setSession initialBot "bob" ⟨[⟨2, "Mouse", 2999⟩], none, "browsing"⟩)
      "alice" "bob" (by decide)).1 "btn_add_1",
    (session_isolation
      (setSession initialBot "bob" ⟨[⟨2, "Mouse", 2999⟩], none, "browsing"⟩)
      "alice" "bob" (by decide)).2.2.2.1⟩

/-! ## The last-product invariant and its preservation -/

theorem lastInv_initial : LastInv initialBot := by
  intro u sess h
  simp [initialBot] at h

theorem lastInv_set (bot : ChatBot) (u : String) (sess : Session)
    (hI : LastInv bot) (hok : SessOk sess) : LastInv (setSession bot u sess) := by
  intro v sv hv
  by_cases hvu : v = u
  · subst hvu
    rw [setSession_self] at hv
    injection hv with h2
    exact h2 ▸ hok
  · rw [setSession_other _ _ _ _ hvu] at hv
    exact hI v sv hv

theorem lastInv_g (bot : ChatBot) (u : String) (hI : LastInv bot) :
    LastInv (get_or_create_session bot u).2 := by
  cases h : bot u with
  | some s => rw [get_or_create_of_some bot u s h]; exact hI
  | none => rw [get_or_create_of_none bot u h]; exact lastInv_set bot u freshSession hI (Or.inl rfl)

theorem sessOk_g_fst (bot : ChatBot) (u : String) (hI : LastInv bot) :
    SessOk (get_or_create_session bot u).1 := by
  cases h : bot u with
  | some s => rw [get_or_create_of_some bot u s h]; exact hI u s h
  | none => rw [get_or_create_of_none bot u h]; exact Or.inl rfl

theorem find_by_id_mem (pid : Int) (p : Product)
    (h : find_product_by_id pid = some p) : p ∈ AVAILABLE_PRODUCTS :=
  List.mem_of_find?_eq_some h

theorem find_by_name_mem (q : String) (p : Product)
    (h : find_product_by_name q = some p) : p ∈ AVAILABLE_PRODUCTS :=
  List.mem_of_find?_eq_some h

theorem last_of_g_mem (bot : ChatBot) (u : String) (p : Product) (hI : LastInv bot)
    (h : (find_last_selected_product (get_or_create_session bot u).2 u).1 = some p) :
    p ∈ AVAILABLE_PRODUCTS := by
  simp only [find_last_selected_product, get_or_create_idem] at h
  rcases sessOk_g_fst bot u hI with hnone | ⟨q, hqmem, hqeq⟩
  · rw [hnone] at h
    cases h
  · rw [hqeq] at h
    injection h with h2
    exact h2 ▸ hqmem

theorem lastInv_add (bot : ChatBot) (u : String) (pid : Option Int) (hI : LastInv bot) :
    LastInv (add_product_to_cart bot u pid).2 := by
  simp only [add_product_to_cart]
  split
  · exact lastInv_g bot u hI
  next p hp =>
    refine lastInv_set _ u _ (lastInv_g bot u hI) (Or.inr ⟨p, ?_, rfl⟩)
    cases pid with
    | none => exact last_of_g_mem bot u p hI hp
    | some n =>
      dsimp only at hp
      by_cases hn : n = 0
      · subst hn
        rw [if_pos rfl] at hp
        exact last_of_g_mem bot u p hI hp
      · rw [if_neg hn] at hp
        exact find_by_id_mem n p hp

theorem lastInv_selection (bot : ChatBot) (u q : String) (hI : LastInv bot) :
    LastInv (handle_product_selection bot u q).2 := by
  simp only [handle_product_selection]
  split
  next p hp =>
    exact lastInv_set _ u _ (lastInv_g bot u hI) (Or.inr ⟨p, find_by_name_mem q p hp, rfl⟩)
  · exact lastInv_g bot u hI

theorem lastInv_view (bot : ChatBot) (u : String) (hI : LastInv bot) :
    LastInv (send_cart_confirmation_buttons bot u).2 := by
  simp only [send_cart_confirmation_buttons]
  split
  · exact lastInv_g bot u hI
  · exact lastInv_g bot u hI

theorem lastInv_clear (bot : ChatBot) (u : String) (hI : LastInv bot) :
    LastInv (clear_cart bot u).2 := by
  simp only [clear_cart]
  exact lastInv_set _ u _ (lastInv_g bot u hI) (sessOk_g_fst bot u hI)

theorem lastInv_checkout (bot : ChatBot) (u : String) (hI : LastInv bot) :
    LastInv (process_checkout bot u).2 := by
  simp only [process_checkout]
  split
  · exact lastInv_g bot u hI
  · exact lastInv_set _ u _ (lastInv_g bot u hI) (Or.inl rfl)

theorem lastInv_button (bot : ChatBot) (u m : String) (hI : LastInv bot) :
    LastInv (handle_button_press bot u m).2 := by
  have hg := lastInv_g bot u hI
  simp only [handle_button_press]
  split
  · split
    · exact lastInv_add _ u _ hg
    · exact hg
  · split
    · exact lastInv_view _ u hg
    · split
      · exact hg
      · split
        · exact lastInv_clear _ u hg
        · split
          · exact lastInv_checkout _ u hg
          · exact hg

theorem lastInv_hm (bot : ChatBot) (u m : String) (hI : LastInv bot) :
    LastInv (handle_message bot u m).2 := by
  have hg := lastInv_g bot u hI
  simp only [handle_message]
  split
  · exact lastInv_button _ u m hg
  · split
    · exact lastInv_add _ u none hg
    · split
      · exact lastInv_selection _ u _ hg
      · split
        · exact lastInv_view _ u hg
        · exact hg

theorem lastInv_run (bot : ChatBot) (msgs : List (String × String)) (hI : LastInv bot) :
    LastInv (runMessages bot msgs) := by
  induction msgs generalizing bot with
  | nil => exact hI
  | cons um rest ih =>
    simp only [runMessages, List.foldl_cons]
    exact ih (handle_message bot um.1 um.2).2 (lastInv_hm bot um.1 um.2 hI)

/-- C9: last-product catalog invariant.  In every state reachable from a
fresh `ChatBot` by any sequence of `handle_message` calls, whenever a
session's `last_product` is set it is a product of the (fixed) catalog; and
initially `find_last_selected_product` returns none for every user. -/
theorem last_product_catalog_invariant :
    (∀ u, (find_last_selected_product initialBot u).1 = none)
    ∧ ∀ msgs u sess, runMessages initialBot msgs u = some sess →
        sess.last_product = none
        ∨ ∃ p ∈ AVAILABLE_PRODUCTS, sess.last_product = some p :=
  ⟨fun _ => rfl,
    fun msgs u sess h => lastInv_run initialBot msgs lastInv_initial u sess h⟩

/-- C9 witness: after the single message "laptop", user "u" has
`last_product = Laptop`, a catalog product. -/
theorem last_product_catalog_invariant_witness :
    runMessages initialBot [("u", "laptop")] "u"
        = some ⟨[], some ⟨1, "Laptop", 99999⟩, "browsing"⟩
    ∧ ((⟨[], some ⟨1, "Laptop", 99999⟩, "browsing"⟩ : Session).last_product = none
        ∨ ∃ p ∈ AVAILABLE_PRODUCTS,
            (⟨[], some ⟨1, "Laptop", 99999⟩, "browsing"⟩ : Session).last_product = some p) :=
  ⟨by decide,
    last_product_catalog_invariant.2 [("u", "laptop")] "u"
      ⟨[], some ⟨1, "Laptop", 99999⟩, "browsing"⟩ (by decide)⟩

/-! ## Grouping lemmas for the cart summary -/

theorem addToGroups_of_not_mem (G : List (Product × Nat)) (a : Product)
    (h : a.name ∉ G.map fun g => g.1.name) :
    addToGroups G a = G ++ [(a, 1)] := by
  induction G with
  | nil => rfl
  | cons g rest ih =>
    obtain ⟨p, c⟩ := g
    simp only [List.map_cons, List.mem_cons, not_or] at h
    simp only [addToGroups]
    rw [if_neg fun he => h.1 he.symm, ih h.2]
    rfl

theorem addToGroups_of_mem (G : List (Product × Nat)) (a : Product)
    (h : a.name ∈ G.map fun g => g.1.name) :
    ∃ G₁ p c G₂, G = G₁ ++ (p, c) :: G₂ ∧ p.name = a.name
      ∧ (a.name ∉ G₁.map fun g => g.1.name)
      ∧ addToGroups G a = G₁ ++ (p, c + 1) :: G₂ := by
  induction G with
  | nil => simp at h
  | cons g rest ih =>
    obtain ⟨p, c⟩ := g
    by_cases hp : p.name = a.name
    · exact ⟨[], p, c, rest, rfl, hp, by simp, by simp [addToGroups, hp]⟩
    · simp only [List.map_cons, List.mem_cons] at h
      have hmem := h.resolve_left fun he => hp he.symm
      obtain ⟨G₁, q, d, G₂, hG, hq, hnG₁, hadd⟩ := ih hmem
      refine ⟨(p, c) :: G₁, q, d, G₂, by rw [hG]; rfl, hq, ?_, ?_⟩
      · simp only [List.map_cons, List.mem_cons, not_or]
        exact ⟨fun he => hp he.symm, hnG₁⟩
      · simp only [addToGroups]
        rw [if_neg hp, hadd]
        rfl

theorem addToGroups_names (G : List (Product × Nat)) (a : Product) :
    (addToGroups G a).map (fun g => g.1.name)
      = if a.name ∈ G.map (fun g => g.1.name) then G.map (fun g => g.1.name)
        else G.map (fun g => g.1.name) ++ [a.name] := by
  by_cases h : a.name ∈ G.map fun g => g.1.name
  · obtain ⟨G₁, p, c, G₂, hG, _, _, hadd⟩ := addToGroups_of_mem G a h
    rw [if_pos h, hadd, hG]
    simp
  · rw [if_neg h, addToGroups_of_not_mem G a h]
    simp

theorem addToGroups_counts (G : List (Product × Nat)) (a : Product) :
    ((addToGroups G a).map fun g => g.2).sum = ((G.map fun g => g.2)).sum + 1 := by
  by_cases h : a.name ∈ G.map fun g => g.1.name
  · obtain ⟨G₁, p, c, G₂, hG, _, _, hadd⟩ := addToGroups_of_mem G a h
    rw [hadd, hG]
    simp only [List.map_append, List.map_cons, List.sum_append, List.sum_cons]
    omega
  · rw [addToGroups_of_not_mem G a h]
    simp

theorem foldl_addToGroups_names (cart : List Product) :
    ∀ G, ((cart.foldl addToGroups G).map fun g => g.1.name)
      = (cart.map Product.name).foldl
          (fun acc x => if x ∈ acc then acc else acc ++ [x])
          (G.map fun g => g.1.name) := by
  induction cart with
  | nil => intro G; rfl
  | cons a rest ih =>
    intro G
    simp only [List.foldl_cons, List.map_cons]
    rw [ih (addToGroups G a), addToGroups_names]

theorem groupCart_names (cart : List Product) :
    (groupCart cart).map (fun g => g.1.name) = dedupFirst (cart.map Product.name) := by
  have h := foldl_addToGroups_names cart []
  simpa [groupCart, dedupFirst] using h

theorem foldl_addToGroups_counts (cart : List Product) :
    ∀ G, (((cart.foldl addToGroups G).map fun g => g.2)).sum
      = ((G.map fun g => g.2)).sum + cart.length := by
  induction cart with
  | nil => intro G; simp
  | cons a rest ih =>
    intro G
    simp only [List.foldl_cons, List.length_cons]
    rw [ih (addToGroups G a), addToGroups_counts]
    omega

theorem groupCart_counts (cart : List Product) :
    ((groupCart cart).map fun g => g.2).sum = cart.length := by
  have h := foldl_addToGroups_counts cart []
  simpa [groupCart] using h

theorem groupCart_concat (cart : List Product) (a : Product) :
    groupCart (cart ++ [a]) = addToGroups (groupCart cart) a :=
  List.foldl_concat addToGroups [] a cart

theorem unchanged_concat (cart : List Product) (a : Product) (g : Product × Nat)
    (hne : g.1.name ≠ a.name)
    (hold : cart.find? (fun i => i.name == g.1.name) = some g.1
      ∧ g.2 = (cart.filter fun i => i.name == g.1.name).length) :
    (cart ++ [a]).find? (fun i => i.name == g.1.name) = some g.1
    ∧ g.2 = ((cart ++ [a]).filter fun i => i.name == g.1.name).length := by
  constructor
  · rw [List.find?_append, hold.1]
    rfl
  · rw [List.filter_append]
    have hfil : List.filter (fun i => i.name == g.1.name) [a] = [] := by
      simp only [List.filter_eq_nil_iff, List.mem_singleton]
      intro x hx
      subst hx
      simp [beq_iff_eq]
      exact fun he => hne he.symm
    rw [hfil]
    simp [hold.2]

theorem groupCart_members (cart : List Product) :
    (∀ g ∈ groupCart cart,
        cart.find? (fun i => i.name == g.1.name) = some g.1
        ∧ g.2 = (cart.filter fun i => i.name == g.1.name).length)
    ∧ ((groupCart cart).map fun g => g.1.name).Nodup
    ∧ ∀ x, (x ∈ (groupCart cart).map fun g => g.1.name) ↔ x ∈ cart.map Product.name := by
  induction cart using List.reverseRecOn with
  | nil =>
    refine ⟨fun g hg => absurd hg (by simp [groupCart]), by simp [groupCart], by simp [groupCart]⟩
  | append_singleton cart a ih =>
    obtain ⟨ihm, ihnd, ihmem⟩ := ih
    rw [groupCart_concat]
    by_cases hmem : a.name ∈ (groupCart cart).map fun g => g.1.name
    · obtain ⟨G₁, p, c, G₂, hG, hpname, hnG₁, hadd⟩ := addToGroups_of_mem _ a hmem
      rw [hadd]
      have hnames : ((G₁ ++ (p, c + 1) :: G₂).map fun g => g.1.name)
          = ((groupCart cart).map fun g => g.1.name) := by
        rw [hG]
        simp
      refine ⟨?_, by rw [hnames]; exact ihnd, ?_⟩
      · intro g hg
        rcases List.mem_append.mp hg with hg1 | hg2
        · have hgold : g ∈ groupCart cart := by
            rw [hG]
            exact List.mem_append_left _ hg1
          have hgne : g.1.name ≠ a.name := by
            intro he
            exact hnG₁ (he ▸ List.mem_map_of_mem (fun g => g.1.name) hg1)
          exact unchanged_concat cart a g hgne (ihm g hgold)
        · rcases List.mem_cons.mp hg2 with hgp | hg3
          · subst hgp
            have hold := ihm (p, c) (by
              rw [hG]
              exact List.mem_append_right _ (List.mem_cons_self _ _))
            constructor
            · rw [List.find?_append, hold.1]
              rfl
            · have hfil : List.filter (fun i => i.name == p.name) [a] = [a] := by
                simp [beq_iff_eq, hpname.symm]
              rw [List.filter_append, hfil, List.length_append]
              simp only [List.length_singleton]
              rw [← hold.2]
          · have hgold : g ∈ groupCart cart := by
              rw [hG]
              exact List.mem_append_right _ (List.mem_cons_of_mem _ hg3)
            have hpG₂ : p.name ∉ (G₂.map fun g => g.1.name) := by
              have hnd := ihnd
              rw [hG] at hnd
              simp only [List.map_append, List.map_cons] at hnd
              exact (List.nodup_cons.mp (List.nodup_append.mp hnd).2.1).1
            have hgne : g.1.name ≠ a.name := by
              intro he
              have hin : g.1.name ∈ G₂.map fun g => g.1.name :=
                List.mem_map_of_mem (fun g => g.1.name) hg3
              rw [he, ← hpname] at hin
              exact hpG₂ hin
            exact unchanged_concat cart a g hgne (ihm g hgold)
      · intro x
        rw [hnames, List.map_append]
        simp only [List.mem_append, List.map_cons, List.map_nil, List.mem_singleton]
        constructor
        · intro hx
          exact Or.inl ((ihmem x).mp hx)
        · intro hx
          rcases hx with hx | hx
          · exact (ihmem x).mpr hx
          · rw [hx]
            exact hmem
    · rw [addToGroups_of_not_mem _ a hmem]
      have hnot : a.name ∉ cart.map Product.name := fun hx => hmem ((ihmem a.name).mpr hx)
      refine ⟨?_, ?_, ?_⟩
      · intro g hg
        rcases List.mem_append.mp hg with hg1 | hg2
        · have hgne : g.1.name ≠ a.name := by
            intro he
            exact hmem (he ▸ List.mem_map_of_mem (fun g => g.1.name) hg1)
          exact unchanged_concat cart a g hgne (ihm g hg1)
        · have hge : g = (a, 1) := by simpa using hg2
          subst hge
          have hfind : cart.find? (fun i => i.name == a.name) = none := by
            rw [List.find?_eq_none]
            intro x hx hbeq
            have hxa : x.name = a.name := by simpa [beq_iff_eq] using hbeq
            exact hnot (hxa ▸ List.mem_map_of_mem Product.name hx)
          have hfil : cart.filter (fun i => i.name == a.name) = [] := by
            rw [List.filter_eq_nil_iff]
            intro x hx hbeq
            have hxa : x.name = a.name := by simpa [beq_iff_eq] using hbeq
            exact hnot (hxa ▸ List.mem_map_of_mem Product.name hx)
          constructor
          · rw [List.find?_append, hfind]
            simp
          · rw [List.filter_append, hfil]
            simp
      · simp only [List.map_append, List.map_cons, List.map_nil]
        rw [List.nodup_append]
        exact ⟨ihnd, List.nodup_singleton _, List.disjoint_singleton.mpr hmem⟩
      · intro x
        simp only [List.map_append, List.map_cons, List.map_nil, List.mem_append,
          List.mem_singleton]
        constructor
        · intro hx
          rcases hx with hx | hx
          · exact Or.inl ((ihmem x).mp hx)
          · exact Or.inr hx
        · intro hx
          rcases hx with hx | hx
          · exact Or.inl ((ihmem x).mpr hx)
          · exact Or.inr hx

theorem toString_digit_len : ∀ n, n < 10 → (toString n).length = 1 := by decide

theorem formatPrice_two_decimals (cents : Nat) :
    ∃ t : String, t.length = 2
      ∧ formatPrice cents = toString (cents / 100) ++ "." ++ t := by
  refine ⟨toString (cents % 100 / 10) ++ toString (cents % 100 % 10), ?_, ?_⟩
  · rw [String.length_append]
    have h1 : cents % 100 / 10 < 10 := by omega
    have h2 : cents % 100 % 10 < 10 := by omega
    rw [toString_digit_len _ h1, toString_digit_len _ h2]
  · simp [formatPrice, String.append_assoc]

/-- C4: cart summary correctness.  For every user with a non-empty cart the
summary is built from the insertion-ordered grouping of the cart by product
name (first-occurrence order, witnessed by `dedupFirst`); each group counts
exactly the cart entries with its name and keeps the first such entry;
`item_count` is the total number of entries (the group counts sum to it);
the total is the sum of all entry prices; prices are rendered with exactly
two decimals; and the cart [Laptop, Mouse] renders as the expected
"2 items" / "$1029.98" summary with two count-1 lines. -/
theorem cart_summary_correct (bot : ChatBot) (u : String) (sess : Session)
    (h : bot u = some sess) (hne : sess.cart ≠ []) :
    (send_cart_confirmation_buttons bot u).1.response = cartSummaryText sess.cart
    ∧ cartSummaryText sess.cart
        = "🛒 Tu carrito (" ++ toString sess.cart.length ++ " items):\n"
          ++ String.intercalate "\n" ((groupCart sess.cart).map fun g => cartLine g.1 g.2)
          ++ "\n\nTotal: $" ++ formatPrice (sess.cart.map Product.price).sum
    ∧ (groupCart sess.cart).map (fun g => g.1.name) = dedupFirst (sess.cart.map Product.name)
    ∧ ((groupCart sess.cart).map fun g => g.2).sum = sess.cart.length
    ∧ (∀ g ∈ groupCart sess.cart,
        sess.cart.find? (fun i => i.name == g.1.name) = some g.1
        ∧ g.2 = (sess.cart.filter fun i => i.name == g.1.name).length)
    ∧ (∀ p count, count > 1 →
        cartLine p count = "• " ++ p.name ++ " x" ++ toString count ++ " - $"
          ++ formatPrice (p.price * count))
    ∧ (∀ cents, ∃ t : String, t.length = 2
        ∧ formatPrice cents = toString (cents / 100) ++ "." ++ t)
    ∧ cartSummaryText [⟨1, "Laptop", 99999⟩, ⟨2, "Mouse", 2999⟩]
        = "🛒 Tu carrito (2 items):\n• Laptop - $999.99\n• Mouse - $29.99\n\nTotal: $1029.98"
    ∧ groupCart [⟨1, "Laptop", 99999⟩, ⟨2, "Mouse", 2999⟩]
        = [(⟨1, "Laptop", 99999⟩, 1), (⟨2, "Mouse", 2999⟩, 1)] := by
  refine ⟨?_, rfl, groupCart_names _, groupCart_counts _, (groupCart_members _).1,
    fun p count hc => by simp [cartLine, hc], formatPrice_two_decimals,
    by decide, by decide⟩
  simp [send_cart_confirmation_buttons, get_or_create_of_some bot u sess h, hne]

/-- C4 witness: user "u" with cart [Laptop, Mouse] gets the expected
concrete summary text. -/
theorem cart_summary_correct_witness :
    (setSession initialBot "u"
        ⟨[⟨1, "Laptop", 99999⟩, ⟨2, "Mouse", 2999⟩], none, "browsing"⟩) "u"
      = some ⟨[⟨1, "Laptop", 99999⟩, ⟨2, "Mouse", 2999⟩], none, "browsing"⟩
    ∧ (send_cart_confirmation_buttons
        (setSession initialBot "u"
          ⟨[⟨1, "Laptop", 99999⟩, ⟨2, "Mouse", 2999⟩], none, "browsing"⟩) "u").1.response
      = "🛒 Tu carrito (2 items):\n• Laptop - $999.99\n• Mouse - $29.99\n\nTotal: $1029.98" := by
  have h := cart_summary_correct
    (setSession initialBot "u" ⟨[⟨1, "Laptop", 99999⟩, ⟨2, "Mouse", 2999⟩], none, "browsing"⟩)
    "u" ⟨[⟨1, "Laptop", 99999⟩, ⟨2, "Mouse", 2999⟩], none, "browsing"⟩ (by decide) (by decide)
  exact ⟨by decide, h.1.trans h.2.2.2.2.2.2.2.1⟩
